import Mathlib

/-!
Shallow embedding of the Junior_College_Result backend's result-computation
engine (`backend/services/result_service.py`) and the teacher mark-mutation
handlers (`backend/routes/teacher_routes.py`), with theorems checking the
specification's claims about them.

Numbers are modelled as rationals; nullable database columns as `Option`;
SQLAlchemy query results as Lean lists in database order; the session's
in-place row update as replacement of the first matching list element and
`session.add` of a new row as appending to the list.
-/

attribute [local semireducible] Rat.mul Rat.add Rat.sub Rat.inv

/-- Python's `round(x, 2)` (round half to even) on our rational model. -/
def round2 (q : ℚ) : ℚ :=
  let y := q * 100
  let f : Int := y.floor
  let r := y - (f : ℚ)
  let n : Int :=
    if r < 1/2 then f
    else if 1/2 < r then f + 1
    else if f % 2 = 0 then f else f + 1
  (n : ℚ) / 100

/-- The letter-grade thresholds used for EVS/PE in
`generate_results_for_division` (lines 167-176 / 181-190). -/
def gradeOf (a : ℚ) : String :=
  if a ≥ 75 then "A+"
  else if a ≥ 60 then "A"
  else if a ≥ 50 then "B"
  else if a ≥ 35 then "C"
  else "F"

/-! ## Data model (the ORM rows used by the engine and handlers) -/

structure Student where
  roll_no : Nat
  name : String
  division : String
  optional_subject : Option String
  optional_subject_2 : Option String
deriving DecidableEq, Repr

structure Subject where
  subject_id : Nat
  subject_code : String
deriving DecidableEq, Repr

structure Mark where
  mark_id : Nat
  roll_no : Nat
  division : String
  subject_id : Nat
  unit1 : Option ℚ
  unit2 : Option ℚ
  term : Option ℚ
  annual : Option ℚ
  tot : Option ℚ
  sub_avg : Option ℚ
  grace : Option ℚ
  entered_by : Nat
deriving DecidableEq, Repr

structure TeacherSubjectAllocation where
  teacher_id : Nat
  subject_id : Nat
  division : String
deriving DecidableEq, Repr

structure Result where
  roll_no : Nat
  name : String
  division : String
  eng_avg : Option ℚ
  eco_avg : Option ℚ
  bk_avg : Option ℚ
  oc_avg : Option ℚ
  hindi_avg : Option ℚ
  it_avg : Option ℚ
  maths_avg : Option ℚ
  sp_avg : Option ℚ
  eng_grace : Option ℚ
  eco_grace : Option ℚ
  bk_grace : Option ℚ
  oc_grace : Option ℚ
  hindi_grace : Option ℚ
  it_grace : Option ℚ
  maths_grace : Option ℚ
  sp_grace : Option ℚ
  total_grace : Option ℚ
  percentage : Option ℚ
  evs_grade : Option String
  pe_grade : Option String
deriving DecidableEq, Repr

/-- The relational store: each table as a list of rows in database order. -/
structure DB where
  subjects : List Subject
  students : List Student
  marks : List Mark
  allocs : List TeacherSubjectAllocation
  results : List Result
deriving DecidableEq, Repr

/-! ## List helpers modelling session row updates -/

/-- Replace the first element satisfying `p` by its `f`-image (the session's
in-place mutation of the row fetched by `.first()`). -/
def updateFirst {α : Type} (p : α → Bool) (f : α → α) : List α → List α
  | [] => []
  | x :: xs => if p x then f x :: xs else x :: updateFirst p f xs

/-! ## The result-computation engine (`result_service.py`) -/

/-- The subjects dict `{s.subject_id: s.subject_code}` (line 16); a later
row with the same id overwrites an earlier one, so the last match wins. -/
def subjectCodeOf (subjects : List Subject) (sid : Nat) : Option String :=
  ((subjects.filter (fun s => s.subject_id == sid)).getLast?).map (fun s => s.subject_code)

/-- The mark map dict (lines 27-31): `subject_code → Mark` over the
student's marks, skipping marks whose subject code is missing or empty;
for duplicate codes the last mark wins. -/
def markFor (subjects : List Subject) (marks : List Mark) (code : String) : Option Mark :=
  if code = "" then none
  else (marks.filter (fun m => subjectCodeOf subjects m.subject_id == some code)).getLast?

/-- The marks query for a student (lines 21-24). -/
def marksOfStudent (marks : List Mark) (s : Student) : List Mark :=
  marks.filter (fun m => m.roll_no == s.roll_no && m.division == s.division)

/-- The student's `subject_code → Mark` map. -/
def studentMarkMap (subjects : List Subject) (marks : List Mark) (s : Student) :
    String → Option Mark :=
  markFor subjects (marksOfStudent marks s)

def grading_only : List String := ["EVS", "PE"]
def optional_codes : List String := ["HINDI", "IT", "MATHS", "SP"]

/-- One iteration of the allocation loop of lines 41-49: skip missing/empty
codes and the grade-only and optional sets, and append unseen codes. -/
def baseStep (subjects : List Subject) (acc : List String)
    (a : TeacherSubjectAllocation) : List String :=
  match subjectCodeOf subjects a.subject_id with
  | none => acc
  | some code =>
    if code = "" then acc
    else if grading_only.contains code then acc
    else if optional_codes.contains code then acc
    else if acc.contains code then acc
    else acc ++ [code]

/-- The function base_required (lines 38-52): derived from the division's allocations by
the accumulating loop, or the fixed fallback when no allocations exist. -/
def base_required (subjects : List Subject) (allocs : List TeacherSubjectAllocation)
    (division : String) : List String :=
  let as := allocs.filter (fun a => a.division == division)
  if as.isEmpty then ["ENG", "ECO", "BK", "OC"]
  else as.foldl (baseStep subjects) []

/-- The function required_codes (lines 54-58): the base list extended with the student's
chosen optional subjects. -/
def required_codes (subjects : List Subject) (allocs : List TeacherSubjectAllocation)
    (s : Student) : List String :=
  let base := base_required subjects allocs s.division
  let withOpt1 :=
    if s.optional_subject = some "HINDI" ∨ s.optional_subject = some "IT" then
      base ++ [(s.optional_subject).getD ""]
    else base
  if s.optional_subject_2 = some "MATHS" ∨ s.optional_subject_2 = some "SP" then
    withOpt1 ++ [(s.optional_subject_2).getD ""]
  else withOpt1

/-- The flag missing_required (lines 61-66): some required code has no Mark row or a
null annual. -/
def missing_required (mm : String → Option Mark) (codes : List String) : Bool :=
  codes.any (fun c =>
    match mm c with
    | none => true
    | some m => m.annual.isNone)

/-- Accumulator for the scoring loops: the result row under construction plus
the running `total` and `count` (lines 92-93). -/
structure CalcSt where
  r : Result
  total : ℚ
  count : Nat
deriving DecidableEq, Repr

/-- One iteration of the core-subject loop (lines 96-110) for ENG. -/
def coreENG (mm : String → Option Mark) (st : CalcSt) : CalcSt :=
  match mm "ENG" with
  | some m =>
    { r := { st.r with eng_avg := some (m.annual.getD 0), eng_grace := some (m.grace.getD 0) }
      total := st.total + m.annual.getD 0
      count := st.count + 1 }
  | none => st

/-- One iteration of the core-subject loop for ECO. -/
def coreECO (mm : String → Option Mark) (st : CalcSt) : CalcSt :=
  match mm "ECO" with
  | some m =>
    { r := { st.r with eco_avg := some (m.annual.getD 0), eco_grace := some (m.grace.getD 0) }
      total := st.total + m.annual.getD 0
      count := st.count + 1 }
  | none => st

/-- One iteration of the core-subject loop for BK. -/
def coreBK (mm : String → Option Mark) (st : CalcSt) : CalcSt :=
  match mm "BK" with
  | some m =>
    { r := { st.r with bk_avg := some (m.annual.getD 0), bk_grace := some (m.grace.getD 0) }
      total := st.total + m.annual.getD 0
      count := st.count + 1 }
  | none => st

/-- One iteration of the core-subject loop for OC. -/
def coreOC (mm : String → Option Mark) (st : CalcSt) : CalcSt :=
  match mm "OC" with
  | some m =>
    { r := { st.r with oc_avg := some (m.annual.getD 0), oc_grace := some (m.grace.getD 0) }
      total := st.total + m.annual.getD 0
      count := st.count + 1 }
  | none => st

/-- Python expression m.annual if m and m.annual is not None else 0.0. -/
def annualOrZero (m : Option Mark) : ℚ := (m.bind (fun x => x.annual)).getD 0

/-- Python expression m.grace if m and m.grace is not None else 0.0. -/
def graceOrZero (m : Option Mark) : ℚ := (m.bind (fun x => x.grace)).getD 0

/-- Optional group 1 (lines 113-126): HINDI or IT, by the student's choice. -/
def optGroup1 (mm : String → Option Mark) (s : Student) (st : CalcSt) : CalcSt :=
  if s.optional_subject = some "HINDI" then
    { r := { st.r with hindi_avg := some (annualOrZero (mm "HINDI"))
                       hindi_grace := some (graceOrZero (mm "HINDI")) }
      total := st.total + annualOrZero (mm "HINDI")
      count := st.count + 1 }
  else if s.optional_subject = some "IT" then
    { r := { st.r with it_avg := some (annualOrZero (mm "IT"))
                       it_grace := some (graceOrZero (mm "IT")) }
      total := st.total + annualOrZero (mm "IT")
      count := st.count + 1 }
  else st

/-- Optional group 2 (lines 129-142): MATHS or SP, by the student's choice. -/
def optGroup2 (mm : String → Option Mark) (s : Student) (st : CalcSt) : CalcSt :=
  if s.optional_subject_2 = some "MATHS" then
    { r := { st.r with maths_avg := some (annualOrZero (mm "MATHS"))
                       maths_grace := some (graceOrZero (mm "MATHS")) }
      total := st.total + annualOrZero (mm "MATHS")
      count := st.count + 1 }
  else if s.optional_subject_2 = some "SP" then
    { r := { st.r with sp_avg := some (annualOrZero (mm "SP"))
                       sp_grace := some (graceOrZero (mm "SP")) }
      total := st.total + annualOrZero (mm "SP")
      count := st.count + 1 }
  else st

/-- Sum of the non-null entries of a list of nullable rationals
(`sum(g for g in [...] if g is not None)`). -/
def sumSome (l : List (Option ℚ)) : ℚ := (l.filterMap id).sum

/-- Python guard evs_mark and evs_mark.annual is not None gives the annual to grade. -/
def gradeAnnual (mm : String → Option Mark) (code : String) : Option ℚ :=
  (mm code).bind (fun m => m.annual)

/-- The final-calculation block (lines 144-190): `total_grace`, `percentage`
(only when `count > 0`), and the EVS/PE letter grades. -/
def finalize (mm : String → Option Mark) (st : CalcSt) : Result :=
  let r1 := { st.r with total_grace := some (sumSome
    [st.r.eng_grace, st.r.hindi_grace, st.r.it_grace, st.r.maths_grace,
     st.r.sp_grace, st.r.bk_grace, st.r.oc_grace]) }
  let r2 := if 0 < st.count then
    { r1 with percentage := some (round2 (st.total / (st.count : ℚ))) } else r1
  let r3 := match gradeAnnual mm "EVS" with
    | some a => { r2 with evs_grade := some (gradeOf a) }
    | none => r2
  match gradeAnnual mm "PE" with
  | some a => { r3 with pe_grade := some (gradeOf a) }
  | none => r3

/-- The whole compute-and-store body run on a (fetched or fresh) result row
for a student with complete required marks (lines 91-190). -/
def computeResult (mm : String → Option Mark) (s : Student) (r0 : Result) : Result :=
  finalize mm (optGroup2 mm s (optGroup1 mm s
    (coreOC mm (coreBK mm (coreECO mm (coreENG mm ⟨r0, 0, 0⟩))))))

/-- A freshly constructed `Result()` with only roll_no/name/division assigned
(lines 86-89); all other columns start null. -/
def freshResult (s : Student) : Result :=
  { roll_no := s.roll_no, name := s.name, division := s.division
    eng_avg := none, eco_avg := none, bk_avg := none, oc_avg := none
    hindi_avg := none, it_avg := none, maths_avg := none, sp_avg := none
    eng_grace := none, eco_grace := none, bk_grace := none, oc_grace := none
    hindi_grace := none, it_grace := none, maths_grace := none, sp_grace := none
    total_grace := none, percentage := none, evs_grade := none, pe_grade := none }

/-- The `Result.query.filter_by(roll_no=..., division=...)` predicate. -/
def keyMatch (s : Student) (r : Result) : Bool :=
  r.roll_no == s.roll_no && r.division == s.division

/-- Clearing a stale percentage (line 71). -/
def clearPercentage (r : Result) : Result := { r with percentage := none }

/-- The loop body of `generate_results_for_division` for one student
(lines 20-192). -/
def processStudent (subjects : List Subject) (allocs : List TeacherSubjectAllocation)
    (marks : List Mark) (results : List Result) (s : Student) : List Result :=
  let mm := studentMarkMap subjects marks s
  let codes := required_codes subjects allocs s
  if missing_required mm codes then
    updateFirst (keyMatch s) clearPercentage results
  else
    match results.find? (keyMatch s) with
    | some _ => updateFirst (keyMatch s) (computeResult mm s) results
    | none => results ++ [computeResult mm s (freshResult s)]

/-- The service generate_results_for_division (lines 7-194): process every student of
the division in order and commit the updated result table. -/
def generate_results_for_division (division : String) (db : DB) : DB :=
  { db with results :=
      ((db.students.filter (fun s => s.division == division)).foldl
        (processStudent db.subjects db.allocs db.marks) db.results) }

/-! ## The mark-mutation handlers (`teacher_routes.py`) -/

structure HttpResponse where
  status : Nat
  body : String
deriving DecidableEq, Repr

/-- The payload accepted by `EnterMarkSchema`: roll_no/division/subject_id are
required, the component scores and grace may be absent. -/
structure EnterMarkRequest where
  roll_no : Nat
  division : String
  subject_id : Nat
  unit1 : Option ℚ
  unit2 : Option ℚ
  term : Option ℚ
  annual : Option ℚ
  grace : Option ℚ
deriving DecidableEq, Repr

/-- The payload accepted by `UpdateMarkSchema`: the four component scores are
required (they are indexed directly at lines 247-250), grace may be absent. -/
structure UpdateMarkRequest where
  unit1 : ℚ
  unit2 : ℚ
  term : ℚ
  annual : ℚ
  grace : Option ℚ
deriving DecidableEq, Repr

/-- The helper _check_teacher_allocation (lines 27-32). -/
def checkTeacherAllocation (uid sid : Nat) (division : String) (db : DB) :
    Option TeacherSubjectAllocation :=
  db.allocs.find? (fun a =>
    a.teacher_id == uid && a.subject_id == sid && a.division == division)

/-- The autoincrement primary key assigned by the store on insert. -/
def nextMarkId (db : DB) : Nat :=
  db.marks.foldl (fun acc m => max acc m.mark_id) 0 + 1

/-- The handler enter_marks (lines 117-200): validate, then insert the new Mark row
with `grace = 0` and commit. Note: no result regeneration is triggered. -/
def enter_marks (gmax : ℚ) (user_id : Nat) (data : EnterMarkRequest) (db : DB) :
    HttpResponse × DB :=
  match db.subjects.find? (fun s => s.subject_id == data.subject_id) with
  | none => (⟨404, "Invalid subject"⟩, db)
  | some subject =>
    match checkTeacherAllocation user_id subject.subject_id data.division db with
    | none => (⟨403, "Not authorized"⟩, db)
    | some _ =>
      match db.students.find? (fun s =>
          s.roll_no == data.roll_no && s.division == data.division) with
      | none => (⟨404, "Student not found"⟩, db)
      | some student =>
        if (subject.subject_code = "HINDI" ∨ subject.subject_code = "IT") ∧
            student.optional_subject ≠ some subject.subject_code then
          (⟨400, "Student not enrolled in this optional subject"⟩, db)
        else if (subject.subject_code = "MATHS" ∨ subject.subject_code = "SP") ∧
            student.optional_subject_2 ≠ some subject.subject_code then
          (⟨400, "Student not enrolled in this optional subject"⟩, db)
        else
          match db.marks.find? (fun m =>
              m.roll_no == data.roll_no && m.division == data.division &&
              m.subject_id == subject.subject_id) with
          | some _ => (⟨409, "Marks already exist. Use update instead."⟩, db)
          | none =>
            if data.unit1.getD 0 < 0 ∨ data.unit1.getD 0 > 25 ∨
                data.unit2.getD 0 < 0 ∨ data.unit2.getD 0 > 25 then
              (⟨400, "Unit1 and Unit2 must be between 0 and 25"⟩, db)
            else if data.term.getD 0 < 0 ∨ data.term.getD 0 > 50 then
              (⟨400, "Terminal marks must be between 0 and 50"⟩, db)
            else if data.annual.getD 0 < 0 ∨ data.annual.getD 0 > 100 then
              (⟨400, "Annual marks must be between 0 and 100"⟩, db)
            else if data.grace.getD 0 < 0 ∨ data.grace.getD 0 > gmax then
              (⟨400, "Grace out of range"⟩, db)
            else
              (⟨201, "Marks entered successfully"⟩,
                { db with marks := db.marks ++
                  [{ mark_id := nextMarkId db
                     roll_no := data.roll_no
                     division := data.division
                     subject_id := subject.subject_id
                     unit1 := some (data.unit1.getD 0)
                     unit2 := some (data.unit2.getD 0)
                     term := some (data.term.getD 0)
                     annual := some (data.annual.getD 0)
                     tot := some (data.unit1.getD 0 + data.unit2.getD 0 +
                       data.term.getD 0 + data.annual.getD 0)
                     sub_avg := some (round2 ((data.unit1.getD 0 + data.unit2.getD 0 +
                       data.term.getD 0 + data.annual.getD 0) / 2))
                     grace := some 0
                     entered_by := user_id }] })

/-- The line-233 grace resolution of `update_marks`:
`float(data.get("grace", 0)) if "grace" in data else mark.grace`.
When `grace` is absent and the row's grace is null this is `None` and the
following `<` comparison raises a `TypeError`. -/
def resolveGrace (data : UpdateMarkRequest) (mark : Mark) : Option ℚ :=
  match data.grace with
  | some g => some g
  | none => mark.grace

/-- The handler update_marks (lines 206-273): validate, mutate the fetched Mark row,
commit, then regenerate the division's results non-fatally (`genOk` encodes
whether the regeneration call raises). `none` models an unhandled exception
from the null-grace comparison. -/
def update_marks (gmax : ℚ) (user_id : Nat) (mark_id : Nat)
    (data : UpdateMarkRequest) (genOk : Bool) (db : DB) :
    Option (HttpResponse × DB) :=
  match db.marks.find? (fun m => m.mark_id == mark_id) with
  | none => some (⟨404, "Marks not found"⟩, db)
  | some mark =>
    match db.subjects.find? (fun s => s.subject_id == mark.subject_id) with
    | none => some (⟨404, "Invalid subject"⟩, db)
    | some subject =>
      match checkTeacherAllocation user_id subject.subject_id mark.division db with
      | none => some (⟨403, "Not authorized"⟩, db)
      | some _ =>
        if data.unit1 < 0 ∨ data.unit1 > 25 ∨ data.unit2 < 0 ∨ data.unit2 > 25 then
          some (⟨400, "Unit1 and Unit2 must be between 0 and 25"⟩, db)
        else if data.term < 0 ∨ data.term > 50 then
          some (⟨400, "Terminal marks must be between 0 and 50"⟩, db)
        else if data.annual < 0 ∨ data.annual > 100 then
          some (⟨400, "Annual marks must be between 0 and 100"⟩, db)
        else
          match resolveGrace data mark with
          | none => none
          | some grace =>
            if grace < 0 ∨ grace > gmax then
              some (⟨400, "Grace out of range"⟩, db)
            else
              let tot := data.unit1 + data.unit2 + data.term + data.annual
              let newMark :=
                { mark with
                    unit1 := some data.unit1
                    unit2 := some data.unit2
                    term := some data.term
                    annual := some data.annual
                    tot := some tot
                    sub_avg := some (round2 (tot / 2))
                    grace := if data.grace.isSome then some grace else mark.grace }
              let committed := { db with marks :=
                (updateFirst (fun m => m.mark_id == mark_id) (fun _ => newMark) db.marks) }
              some (⟨200, "Marks updated successfully"⟩,
                if genOk then generate_results_for_division mark.division committed
                else committed)

/-- The handler delete_mark (lines 324-347): authorize, delete the row, commit, then
regenerate the division's results non-fatally. -/
def delete_mark (user_id : Nat) (user_type : String) (mark_id : Nat)
    (genOk : Bool) (db : DB) : HttpResponse × DB :=
  match db.marks.find? (fun m => m.mark_id == mark_id) with
  | none => (⟨404, "Marks not found"⟩, db)
  | some mark =>
    if user_type ≠ "ADMIN" ∧ mark.entered_by ≠ user_id then
      (⟨403, "Not authorized to delete this mark"⟩, db)
    else
      let committed := { db with marks := db.marks.eraseP (fun m => m.mark_id == mark_id) }
      (⟨200, "Marks deleted"⟩,
        if genOk then generate_results_for_division mark.division committed
        else committed)

/-! ## Definitions written from the specification's words, for comparison
with the code-derived ones (refinement claims C1 and C3). -/

/-- From the claim: S, "the sum of the annual values of exactly those
required subjects". -/
def requiredAnnualSum (mm : String → Option Mark) (codes : List String) : ℚ :=
  (codes.map (fun c => ((mm c).bind (fun m => m.annual)).getD 0)).sum

/-- From the claim C1: `round(S / n, 2)` where n is the number of required
subjects. -/
def specPercentageOfRequired (mm : String → Option Mark) (codes : List String) : ℚ :=
  round2 (requiredAnnualSum mm codes / (codes.length : ℚ))

/-- Amended C1, core part: each of ENG/ECO/BK/OC contributes its annual
(null as 0) exactly when a Mark row for it exists. -/
def coreScoredSum (mm : String → Option Mark) : ℚ :=
  (if (mm "ENG").isSome then annualOrZero (mm "ENG") else 0) +
  (if (mm "ECO").isSome then annualOrZero (mm "ECO") else 0) +
  (if (mm "BK").isSome then annualOrZero (mm "BK") else 0) +
  (if (mm "OC").isSome then annualOrZero (mm "OC") else 0)

/-- Amended C1: the chosen optional subjects always contribute their annual
(missing mark or null annual as 0). -/
def optScoredSum (mm : String → Option Mark) (s : Student) : ℚ :=
  (if s.optional_subject = some "HINDI" then annualOrZero (mm "HINDI")
   else if s.optional_subject = some "IT" then annualOrZero (mm "IT") else 0) +
  (if s.optional_subject_2 = some "MATHS" then annualOrZero (mm "MATHS")
   else if s.optional_subject_2 = some "SP" then annualOrZero (mm "SP") else 0)

/-- Amended C1: the number of subjects actually scored. -/
def scoredCount (mm : String → Option Mark) (s : Student) : Nat :=
  (if (mm "ENG").isSome then 1 else 0) +
  (if (mm "ECO").isSome then 1 else 0) +
  (if (mm "BK").isSome then 1 else 0) +
  (if (mm "OC").isSome then 1 else 0) +
  (if s.optional_subject = some "HINDI" ∨ s.optional_subject = some "IT" then 1 else 0) +
  (if s.optional_subject_2 = some "MATHS" ∨ s.optional_subject_2 = some "SP" then 1 else 0)

/-- Amended C1: the sum of annual values over the scored subjects. -/
def scoredSum (mm : String → Option Mark) (s : Student) : ℚ :=
  coreScoredSum mm + optScoredSum mm s

/-- Keep-first deduplication, from the spec's "deduplicate, preserving
first-seen order". -/
def nubFrom (seen : List String) : List String → List String
  | [] => []
  | c :: cs => if seen.contains c then nubFrom seen cs else c :: nubFrom (seen ++ [c]) cs

/-- From the spec: the division's allocations mapped to subject codes, with
missing/empty codes and the grade-only and optional sets discarded. -/
def validAllocCodes (subjects : List Subject) (as : List TeacherSubjectAllocation) :
    List String :=
  (as.filterMap (fun a => subjectCodeOf subjects a.subject_id)).filter
    (fun c => !(c == "" || grading_only.contains c || optional_codes.contains c))

/-- From the claim C3: the per-student optional extension. -/
def optionalExtension (s : Student) : List String :=
  (match s.optional_subject with
   | some o => if o = "HINDI" ∨ o = "IT" then [o] else []
   | none => []) ++
  (match s.optional_subject_2 with
   | some o => if o = "MATHS" ∨ o = "SP" then [o] else []
   | none => [])

/-- The requirement list exactly as claim C3 words it: fall back to the fixed
list when the deduplicated filtered code set is EMPTY. -/
def specRequiredClaimC3 (subjects : List Subject) (allocs : List TeacherSubjectAllocation)
    (s : Student) : List String :=
  let as := allocs.filter (fun a => a.division == s.division)
  let valid := nubFrom [] (validAllocCodes subjects as)
  (if valid.isEmpty then ["ENG", "ECO", "BK", "OC"] else valid) ++ optionalExtension s

/-- The amended requirement list: fall back to the fixed list only when the
division has NO allocations at all. -/
def specRequiredAmended (subjects : List Subject) (allocs : List TeacherSubjectAllocation)
    (s : Student) : List String :=
  let as := allocs.filter (fun a => a.division == s.division)
  (if as.isEmpty then ["ENG", "ECO", "BK", "OC"]
   else nubFrom [] (validAllocCodes subjects as)) ++ optionalExtension s
/-! ## Characterization lemmas for the scoring pipeline -/

theorem coreENG_spec (mm : String → Option Mark) (st : CalcSt) :
    coreENG mm st =
      { r := { st.r with
          eng_avg := if (mm "ENG").isSome then some (annualOrZero (mm "ENG")) else st.r.eng_avg
          eng_grace := if (mm "ENG").isSome then some (graceOrZero (mm "ENG")) else st.r.eng_grace }
        total := st.total + (if (mm "ENG").isSome then annualOrZero (mm "ENG") else 0)
        count := st.count + (if (mm "ENG").isSome then 1 else 0) } := by
  cases h : mm "ENG" <;> simp [coreENG, h, annualOrZero, graceOrZero]

theorem coreECO_spec (mm : String → Option Mark) (st : CalcSt) :
    coreECO mm st =
      { r := { st.r with
          eco_avg := if (mm "ECO").isSome then some (annualOrZero (mm "ECO")) else st.r.eco_avg
          eco_grace := if (mm "ECO").isSome then some (graceOrZero (mm "ECO")) else st.r.eco_grace }
        total := st.total + (if (mm "ECO").isSome then annualOrZero (mm "ECO") else 0)
        count := st.count + (if (mm "ECO").isSome then 1 else 0) } := by
  cases h : mm "ECO" <;> simp [coreECO, h, annualOrZero, graceOrZero]

theorem coreBK_spec (mm : String → Option Mark) (st : CalcSt) :
    coreBK mm st =
      { r := { st.r with
          bk_avg := if (mm "BK").isSome then some (annualOrZero (mm "BK")) else st.r.bk_avg
          bk_grace := if (mm "BK").isSome then some (graceOrZero (mm "BK")) else st.r.bk_grace }
        total := st.total + (if (mm "BK").isSome then annualOrZero (mm "BK") else 0)
        count := st.count + (if (mm "BK").isSome then 1 else 0) } := by
  cases h : mm "BK" <;> simp [coreBK, h, annualOrZero, graceOrZero]

theorem coreOC_spec (mm : String → Option Mark) (st : CalcSt) :
    coreOC mm st =
      { r := { st.r with
          oc_avg := if (mm "OC").isSome then some (annualOrZero (mm "OC")) else st.r.oc_avg
          oc_grace := if (mm "OC").isSome then some (graceOrZero (mm "OC")) else st.r.oc_grace }
        total := st.total + (if (mm "OC").isSome then annualOrZero (mm "OC") else 0)
        count := st.count + (if (mm "OC").isSome then 1 else 0) } := by
  cases h : mm "OC" <;> simp [coreOC, h, annualOrZero, graceOrZero]

theorem optGroup1_spec (mm : String → Option Mark) (s : Student) (st : CalcSt) :
    optGroup1 mm s st =
      { r := { st.r with
          hindi_avg := if s.optional_subject = some "HINDI" then
            some (annualOrZero (mm "HINDI")) else st.r.hindi_avg
          hindi_grace := if s.optional_subject = some "HINDI" then
            some (graceOrZero (mm "HINDI")) else st.r.hindi_grace
          it_avg := if s.optional_subject = some "IT" then
            some (annualOrZero (mm "IT")) else st.r.it_avg
          it_grace := if s.optional_subject = some "IT" then
            some (graceOrZero (mm "IT")) else st.r.it_grace }
        total := st.total +
          (if s.optional_subject = some "HINDI" then annualOrZero (mm "HINDI")
           else if s.optional_subject = some "IT" then annualOrZero (mm "IT") else 0)
        count := st.count +
          (if s.optional_subject = some "HINDI" ∨ s.optional_subject = some "IT"
           then 1 else 0) } := by
  by_cases h1 : s.optional_subject = some "HINDI" <;>
    by_cases h2 : s.optional_subject = some "IT" <;>
    simp_all [optGroup1]

theorem optGroup2_spec (mm : String → Option Mark) (s : Student) (st : CalcSt) :
    optGroup2 mm s st =
      { r := { st.r with
          maths_avg := if s.optional_subject_2 = some "MATHS" then
            some (annualOrZero (mm "MATHS")) else st.r.maths_avg
          maths_grace := if s.optional_subject_2 = some "MATHS" then
            some (graceOrZero (mm "MATHS")) else st.r.maths_grace
          sp_avg := if s.optional_subject_2 = some "SP" then
            some (annualOrZero (mm "SP")) else st.r.sp_avg
          sp_grace := if s.optional_subject_2 = some "SP" then
            some (graceOrZero (mm "SP")) else st.r.sp_grace }
        total := st.total +
          (if s.optional_subject_2 = some "MATHS" then annualOrZero (mm "MATHS")
           else if s.optional_subject_2 = some "SP" then annualOrZero (mm "SP") else 0)
        count := st.count +
          (if s.optional_subject_2 = some "MATHS" ∨ s.optional_subject_2 = some "SP"
           then 1 else 0) } := by
  by_cases h1 : s.optional_subject_2 = some "MATHS" <;>
    by_cases h2 : s.optional_subject_2 = some "SP" <;>
    simp_all [optGroup2]

theorem finalize_spec (mm : String → Option Mark) (st : CalcSt) :
    finalize mm st =
      { st.r with
        total_grace := some (sumSome
          [st.r.eng_grace, st.r.hindi_grace, st.r.it_grace, st.r.maths_grace,
           st.r.sp_grace, st.r.bk_grace, st.r.oc_grace])
        percentage := if 0 < st.count then
          some (round2 (st.total / (st.count : ℚ))) else st.r.percentage
        evs_grade := match gradeAnnual mm "EVS" with
          | some a => some (gradeOf a)
          | none => st.r.evs_grade
        pe_grade := match gradeAnnual mm "PE" with
          | some a => some (gradeOf a)
          | none => st.r.pe_grade } := by
  unfold finalize
  cases hE : gradeAnnual mm "EVS" <;> cases hP : gradeAnnual mm "PE" <;>
    by_cases hc : 0 < st.count <;> simp [hE, hP, hc]
/-- Master characterization of the compute-and-store body: every field of the
produced row, with the running total/count expressed by the spec-side
`scoredSum`/`scoredCount`. -/
theorem computeResult_spec (mm : String → Option Mark) (s : Student) (r0 : Result) :
    computeResult mm s r0 =
      { roll_no := r0.roll_no, name := r0.name, division := r0.division
        eng_avg := if (mm "ENG").isSome then some (annualOrZero (mm "ENG")) else r0.eng_avg
        eco_avg := if (mm "ECO").isSome then some (annualOrZero (mm "ECO")) else r0.eco_avg
        bk_avg := if (mm "BK").isSome then some (annualOrZero (mm "BK")) else r0.bk_avg
        oc_avg := if (mm "OC").isSome then some (annualOrZero (mm "OC")) else r0.oc_avg
        hindi_avg := if s.optional_subject = some "HINDI" then
          some (annualOrZero (mm "HINDI")) else r0.hindi_avg
        it_avg := if s.optional_subject = some "IT" then
          some (annualOrZero (mm "IT")) else r0.it_avg
        maths_avg := if s.optional_subject_2 = some "MATHS" then
          some (annualOrZero (mm "MATHS")) else r0.maths_avg
        sp_avg := if s.optional_subject_2 = some "SP" then
          some (annualOrZero (mm "SP")) else r0.sp_avg
        eng_grace := if (mm "ENG").isSome then some (graceOrZero (mm "ENG")) else r0.eng_grace
        eco_grace := if (mm "ECO").isSome then some (graceOrZero (mm "ECO")) else r0.eco_grace
        bk_grace := if (mm "BK").isSome then some (graceOrZero (mm "BK")) else r0.bk_grace
        oc_grace := if (mm "OC").isSome then some (graceOrZero (mm "OC")) else r0.oc_grace
        hindi_grace := if s.optional_subject = some "HINDI" then
          some (graceOrZero (mm "HINDI")) else r0.hindi_grace
        it_grace := if s.optional_subject = some "IT" then
          some (graceOrZero (mm "IT")) else r0.it_grace
        maths_grace := if s.optional_subject_2 = some "MATHS" then
          some (graceOrZero (mm "MATHS")) else r0.maths_grace
        sp_grace := if s.optional_subject_2 = some "SP" then
          some (graceOrZero (mm "SP")) else r0.sp_grace
        total_grace := some (sumSome
          [if (mm "ENG").isSome then some (graceOrZero (mm "ENG")) else r0.eng_grace,
           if s.optional_subject = some "HINDI" then
             some (graceOrZero (mm "HINDI")) else r0.hindi_grace,
           if s.optional_subject = some "IT" then
             some (graceOrZero (mm "IT")) else r0.it_grace,
           if s.optional_subject_2 = some "MATHS" then
             some (graceOrZero (mm "MATHS")) else r0.maths_grace,
           if s.optional_subject_2 = some "SP" then
             some (graceOrZero (mm "SP")) else r0.sp_grace,
           if (mm "BK").isSome then some (graceOrZero (mm "BK")) else r0.bk_grace,
           if (mm "OC").isSome then some (graceOrZero (mm "OC")) else r0.oc_grace])
        percentage := if 0 < scoredCount mm s then
          some (round2 (scoredSum mm s / (scoredCount mm s : ℚ))) else r0.percentage
        evs_grade := match gradeAnnual mm "EVS" with
          | some a => some (gradeOf a)
          | none => r0.evs_grade
        pe_grade := match gradeAnnual mm "PE" with
          | some a => some (gradeOf a)
          | none => r0.pe_grade } := by
  unfold computeResult
  rw [coreENG_spec, coreECO_spec, coreBK_spec, coreOC_spec, optGroup1_spec,
    optGroup2_spec, finalize_spec]
  simp only [scoredCount, scoredSum, coreScoredSum, optScoredSum]
  norm_num [add_assoc]
/-! ## Lemmas about updateFirst and find? -/

theorem updateFirst_of_find?_none {α : Type} (p : α → Bool) (f : α → α) :
    ∀ l : List α, l.find? p = none → updateFirst p f l = l := by
  intro l h
  induction l with
  | nil => rfl
  | cons a l ih =>
    by_cases hpa : p a
    · rw [List.find?_cons_of_pos _ hpa] at h
      exact absurd h (by simp)
    · rw [List.find?_cons_of_neg _ (by simpa using hpa)] at h
      simp [updateFirst, hpa, ih h]

theorem updateFirst_eq_self_of_fix {α : Type} (p : α → Bool) (f : α → α) :
    ∀ l : List α, (∀ x, l.find? p = some x → f x = x) → updateFirst p f l = l := by
  intro l h
  induction l with
  | nil => rfl
  | cons a l ih =>
    by_cases hpa : p a
    · have := h a (List.find?_cons_of_pos _ hpa)
      simp [updateFirst, hpa, this]
    · simp only [updateFirst, hpa, Bool.false_eq_true, if_false, List.cons.injEq, true_and]
      exact ih (fun x hx => h x (by
        rw [List.find?_cons_of_neg _ (by simpa using hpa)]; exact hx))

theorem fix_of_updateFirst_eq_self {α : Type} (p : α → Bool) (f : α → α) :
    ∀ l : List α, updateFirst p f l = l → ∀ x, l.find? p = some x → f x = x := by
  intro l h x hx
  induction l with
  | nil => simp at hx
  | cons a l ih =>
    by_cases hpa : p a
    · rw [List.find?_cons_of_pos _ hpa] at hx
      simp only [updateFirst, hpa, if_true, List.cons.injEq] at h
      rw [← Option.some.injEq] at hx
      cases hx
      exact h.1
    · rw [List.find?_cons_of_neg _ (by simpa using hpa)] at hx
      simp only [updateFirst, hpa, Bool.false_eq_true, if_false, List.cons.injEq, true_and] at h
      exact ih h hx

theorem find?_updateFirst_disjoint {α : Type} (p q : α → Bool) (f : α → α)
    (hq : ∀ x, q x = true → p x = false) (hf : ∀ x, p (f x) = p x) :
    ∀ l : List α, (updateFirst q f l).find? p = l.find? p := by
  intro l
  induction l with
  | nil => rfl
  | cons a l ih =>
    by_cases hqa : q a
    · have hpa : p a = false := hq a hqa
      have hpfa : p (f a) = false := by rw [hf]; exact hpa
      simp only [updateFirst, hqa, if_true]
      rw [List.find?_cons_of_neg _ (by simp [hpfa]),
        List.find?_cons_of_neg _ (by simp [hpa])]
    · simp only [updateFirst, hqa, Bool.false_eq_true, if_false]
      by_cases hpa : p a
      · rw [List.find?_cons_of_pos _ hpa, List.find?_cons_of_pos _ hpa]
      · rw [List.find?_cons_of_neg _ (by simpa using hpa),
          List.find?_cons_of_neg _ (by simpa using hpa)]
        exact ih

theorem find?_updateFirst_self {α : Type} (p : α → Bool) (f : α → α)
    (hf : ∀ x, p (f x) = p x) :
    ∀ l : List α, (updateFirst p f l).find? p = (l.find? p).map f := by
  intro l
  induction l with
  | nil => rfl
  | cons a l ih =>
    by_cases hpa : p a
    · have hpfa : p (f a) = true := by rw [hf]; exact hpa
      simp only [updateFirst, hpa, if_true]
      rw [List.find?_cons_of_pos _ hpfa, List.find?_cons_of_pos _ hpa]
      rfl
    · simp only [updateFirst, hpa, Bool.false_eq_true, if_false]
      rw [List.find?_cons_of_neg _ (by simpa using hpa),
        List.find?_cons_of_neg _ (by simpa using hpa)]
      exact ih

theorem find?_append_single {α : Type} (p : α → Bool) :
    ∀ (l : List α) (x : α), (l ++ [x]).find? p =
      match l.find? p with
      | some y => some y
      | none => if p x then some x else none := by
  intro l x
  induction l with
  | nil =>
    simp only [List.nil_append, List.find?_nil]
    by_cases hpx : p x
    · rw [List.find?_cons_of_pos _ hpx]
      simp [hpx]
    · rw [List.find?_cons_of_neg _ (by simpa using hpx)]
      simp [hpx]
  | cons a l ih =>
    by_cases hpa : p a
    · rw [List.cons_append, List.find?_cons_of_pos _ hpa, List.find?_cons_of_pos _ hpa]
    · rw [List.cons_append, List.find?_cons_of_neg _ (by simpa using hpa),
        List.find?_cons_of_neg _ (by simpa using hpa)]
      exact ih

theorem updateFirst_append_single_of_none {α : Type} (p : α → Bool) (f : α → α) :
    ∀ (l : List α) (x : α), l.find? p = none →
      updateFirst p f (l ++ [x]) = l ++ [if p x then f x else x] := by
  intro l x h
  induction l with
  | nil =>
    by_cases hpx : p x <;> simp [updateFirst, hpx]
  | cons a l ih =>
    by_cases hpa : p a
    · rw [List.find?_cons_of_pos _ hpa] at h
      exact absurd h (by simp)
    · rw [List.find?_cons_of_neg _ (by simpa using hpa)] at h
      simp only [List.cons_append, updateFirst, hpa, Bool.false_eq_true, if_false,
        List.cons.injEq, true_and]
      exact ih h

theorem filter_updateFirst {α : Type} (p q : α → Bool) (f : α → α)
    (hq : ∀ x, q x = true → p x = false) (hf : ∀ x, q x = true → p (f x) = false) :
    ∀ l : List α, (updateFirst q f l).filter p = l.filter p := by
  intro l
  induction l with
  | nil => rfl
  | cons a l ih =>
    by_cases hqa : q a
    · simp [updateFirst, hqa, List.filter_cons, hq a hqa, hf a hqa]
    · simp [updateFirst, hqa, List.filter_cons, ih]

theorem length_updateFirst {α : Type} (p : α → Bool) (f : α → α) :
    ∀ l : List α, (updateFirst p f l).length = l.length := by
  intro l
  induction l with
  | nil => rfl
  | cons a l ih => by_cases hpa : p a <;> simp [updateFirst, hpa, ih]
/-! ## Field preservation and idempotence of the per-student computation -/

theorem computeResult_roll_no (mm : String → Option Mark) (s : Student) (r0 : Result) :
    (computeResult mm s r0).roll_no = r0.roll_no := by
  rw [computeResult_spec]

theorem computeResult_division (mm : String → Option Mark) (s : Student) (r0 : Result) :
    (computeResult mm s r0).division = r0.division := by
  rw [computeResult_spec]

theorem keyMatch_computeResult (u s : Student) (mm : String → Option Mark) (x : Result) :
    keyMatch u (computeResult mm s x) = keyMatch u x := by
  unfold keyMatch
  rw [computeResult_roll_no, computeResult_division]

theorem keyMatch_clearPercentage (u : Student) (x : Result) :
    keyMatch u (clearPercentage x) = keyMatch u x := rfl

theorem keyMatch_freshResult (s : Student) : keyMatch s (freshResult s) = true := by
  simp [keyMatch, freshResult]

theorem clearPercentage_idem (x : Result) :
    clearPercentage (clearPercentage x) = clearPercentage x := rfl

/-- Idempotence of the compute-and-store body: recomputing on an
already-computed row rewrites every written field with the same value and
preserves the rest. -/
theorem computeResult_idem (mm : String → Option Mark) (s : Student) (r0 : Result) :
    computeResult mm s (computeResult mm s r0) = computeResult mm s r0 := by
  simp only [computeResult_spec, Result.mk.injEq]
  repeat' apply And.intro
  all_goals
    first
    | rfl
    | trivial
    | (split_ifs <;> first | rfl | trivial)
    | (cases gradeAnnual mm "EVS" <;> first | rfl | trivial)
    | (cases gradeAnnual mm "PE" <;> first | rfl | trivial)

/-- After processing a gate-passing student, the first matching result row is
the computed row, built on the previously existing row or on a fresh one. -/
theorem find?_processStudent_complete (subjects : List Subject)
    (allocs : List TeacherSubjectAllocation) (marks : List Mark)
    (results : List Result) (s : Student)
    (h : missing_required (studentMarkMap subjects marks s)
      (required_codes subjects allocs s) = false) :
    (processStudent subjects allocs marks results s).find? (keyMatch s) =
      some (computeResult (studentMarkMap subjects marks s) s
        ((results.find? (keyMatch s)).getD (freshResult s))) := by
  unfold processStudent
  simp only [h, Bool.false_eq_true, if_false]
  cases hf : results.find? (keyMatch s) with
  | some r =>
    simp only [hf]
    rw [find?_updateFirst_self _ _ (fun x => keyMatch_computeResult s s _ x) results, hf]
    rfl
  | none =>
    simp only [hf]
    rw [find?_append_single]
    rw [hf]
    simp [keyMatch_computeResult, keyMatch_freshResult]
/-! ## Idempotence machinery for the division-level pass -/

/-- Distinctness of the (roll_no, division) composite natural keys. -/
def keyDistinct (a b : Student) : Prop :=
  (a.roll_no, a.division) ≠ (b.roll_no, b.division)

theorem keyMatch_disjoint (s t : Student) (h : keyDistinct s t) :
    ∀ r, keyMatch t r = true → keyMatch s r = false := by
  intro r htr
  unfold keyMatch at htr ⊢
  simp only [Bool.and_eq_true, beq_iff_eq] at htr
  by_contra hc
  simp only [Bool.not_eq_false, Bool.and_eq_true, beq_iff_eq] at hc
  exact h (by rw [← hc.1, ← hc.2, htr.1, htr.2])

/-- Reprocessing a student immediately is a no-op. -/
theorem processStudent_idem (subjects : List Subject)
    (allocs : List TeacherSubjectAllocation) (marks : List Mark)
    (results : List Result) (s : Student) :
    processStudent subjects allocs marks
      (processStudent subjects allocs marks results s) s =
    processStudent subjects allocs marks results s := by
  by_cases hm : missing_required (studentMarkMap subjects marks s)
      (required_codes subjects allocs s) = true
  · unfold processStudent
    simp only [hm, if_true]
    apply updateFirst_eq_self_of_fix
    intro x hx
    rw [find?_updateFirst_self _ _ (fun x => keyMatch_clearPercentage s x) results] at hx
    cases hf : results.find? (keyMatch s) with
    | none =>
      rw [hf] at hx
      exact absurd hx (by simp)
    | some r =>
      rw [hf] at hx
      simp only [Option.map_some'] at hx
      rw [← Option.some.injEq] at hx
      cases hx
      rfl
  · rw [Bool.not_eq_true] at hm
    have hfind := find?_processStudent_complete subjects allocs marks results s hm
    conv_lhs => rw [processStudent]
    simp only [hm, Bool.false_eq_true, if_false, hfind]
    apply updateFirst_eq_self_of_fix
    intro x hx
    rw [hfind, ← Option.some.injEq] at hx
    cases hx
    exact computeResult_idem _ _ _

/-- Processing a student with a different key does not disturb the rows seen
by this student's queries. -/
theorem find?_processStudent_other (subjects : List Subject)
    (allocs : List TeacherSubjectAllocation) (marks : List Mark)
    (rs : List Result) (s t : Student) (hkey : keyDistinct s t) :
    (processStudent subjects allocs marks rs t).find? (keyMatch s) =
      rs.find? (keyMatch s) := by
  have hq := keyMatch_disjoint s t hkey
  unfold processStudent
  by_cases hm : missing_required (studentMarkMap subjects marks t)
      (required_codes subjects allocs t) = true
  · simp only [hm, if_true]
    exact find?_updateFirst_disjoint _ _ _ hq (fun x => keyMatch_clearPercentage s x) rs
  · rw [Bool.not_eq_true] at hm
    simp only [hm, Bool.false_eq_true, if_false]
    cases hf : rs.find? (keyMatch t) with
    | some r =>
      exact find?_updateFirst_disjoint _ _ _ hq (fun x => keyMatch_computeResult s t _ x) rs
    | none =>
      rw [find?_append_single]
      cases hfs : rs.find? (keyMatch s) with
      | some y => rfl
      | none =>
        have : keyMatch s (computeResult (studentMarkMap subjects marks t) t
            (freshResult t)) = false := by
          rw [keyMatch_computeResult]
          exact hq _ (keyMatch_freshResult t)
        simp [this]

/-- A student whose step is a no-op on `rs` still has a no-op step after a
differently-keyed student is processed. -/
theorem processStudent_preserves_fixed (subjects : List Subject)
    (allocs : List TeacherSubjectAllocation) (marks : List Mark)
    (rs : List Result) (s t : Student) (hkey : keyDistinct s t)
    (hfix : processStudent subjects allocs marks rs s = rs) :
    processStudent subjects allocs marks
      (processStudent subjects allocs marks rs t) s =
    processStudent subjects allocs marks rs t := by
  have hft := find?_processStudent_other subjects allocs marks rs s t hkey
  by_cases hm : missing_required (studentMarkMap subjects marks s)
      (required_codes subjects allocs s) = true
  · conv_lhs => rw [processStudent]
    simp only [hm, if_true]
    apply updateFirst_eq_self_of_fix
    intro x hx
    rw [hft] at hx
    rw [processStudent] at hfix
    simp only [hm, if_true] at hfix
    exact fix_of_updateFirst_eq_self _ _ _ hfix x hx
  · rw [Bool.not_eq_true] at hm
    rw [processStudent] at hfix
    simp only [hm, Bool.false_eq_true, if_false] at hfix
    cases hf : rs.find? (keyMatch s) with
    | none =>
      rw [hf] at hfix
      have := congrArg List.length hfix
      simp at this
    | some r =>
      rw [hf] at hfix
      conv_lhs => rw [processStudent]
      simp only [hm, Bool.false_eq_true, if_false, hft, hf]
      apply updateFirst_eq_self_of_fix
      intro x hx
      rw [hft, hf, ← Option.some.injEq] at hx
      cases hx
      exact fix_of_updateFirst_eq_self _ _ _ hfix r hf
/-- A student's step stays a no-op across processing any list of
differently-keyed students. -/
theorem fix_propagate (subjects : List Subject)
    (allocs : List TeacherSubjectAllocation) (marks : List Mark) :
    ∀ (l : List Student) (rs : List Result) (s : Student),
      (∀ t ∈ l, keyDistinct s t) →
      processStudent subjects allocs marks rs s = rs →
      processStudent subjects allocs marks
        (l.foldl (processStudent subjects allocs marks) rs) s =
        l.foldl (processStudent subjects allocs marks) rs := by
  intro l
  induction l with
  | nil => intro rs s _ hfix; exact hfix
  | cons t l ih =>
    intro rs s hk hfix
    simp only [List.foldl_cons]
    exact ih _ s (fun u hu => hk u (List.mem_cons_of_mem t hu))
      (processStudent_preserves_fixed subjects allocs marks rs s t
        (hk t (List.mem_cons_self t l)) hfix)

/-- After a full pass over pairwise distinctly-keyed students, every
student's step is a no-op. -/
theorem all_fixed (subjects : List Subject)
    (allocs : List TeacherSubjectAllocation) (marks : List Mark) :
    ∀ (l : List Student) (rs : List Result),
      l.Pairwise keyDistinct →
      ∀ s ∈ l, processStudent subjects allocs marks
        (l.foldl (processStudent subjects allocs marks) rs) s =
        l.foldl (processStudent subjects allocs marks) rs := by
  intro l
  induction l with
  | nil => intro rs _ s hs; exact absurd hs (by simp)
  | cons t l ih =>
    intro rs hp s hs
    rw [List.pairwise_cons] at hp
    simp only [List.foldl_cons]
    rcases List.mem_cons.mp hs with h | h
    · subst h
      exact fix_propagate subjects allocs marks l _ s hp.1
        (processStudent_idem subjects allocs marks rs s)
    · exact ih _ hp.2 s h

theorem foldl_fixed {α β : Type} (f : β → α → β) :
    ∀ (l : List α) (b : β), (∀ a ∈ l, f b a = b) → l.foldl f b = b := by
  intro l
  induction l with
  | nil => intro b _; rfl
  | cons a l ih =>
    intro b h
    simp only [List.foldl_cons, h a (List.mem_cons_self a l)]
    exact ih b (fun x hx => h x (List.mem_cons_of_mem a hx))

/-- The division pass is idempotent whenever the division's students have
pairwise distinct (roll_no, division) keys. -/
theorem gen_idempotent (division : String) (db : DB)
    (h : (db.students.filter (fun s => s.division == division)).Pairwise keyDistinct) :
    generate_results_for_division division (generate_results_for_division division db) =
      generate_results_for_division division db := by
  unfold generate_results_for_division
  congr 1
  exact foldl_fixed _ _ _ (fun s hs => all_fixed db.subjects db.allocs db.marks _ _ h s hs)
/-! ## Frame lemmas for the division pass -/

theorem gen_preserves_subjects (d : String) (db : DB) :
    (generate_results_for_division d db).subjects = db.subjects := rfl

theorem gen_preserves_students (d : String) (db : DB) :
    (generate_results_for_division d db).students = db.students := rfl

theorem gen_preserves_marks (d : String) (db : DB) :
    (generate_results_for_division d db).marks = db.marks := rfl

theorem gen_preserves_allocs (d : String) (db : DB) :
    (generate_results_for_division d db).allocs = db.allocs := rfl

theorem filter_processStudent_other_division (subjects : List Subject)
    (allocs : List TeacherSubjectAllocation) (marks : List Mark)
    (rs : List Result) (s : Student) (d : String) (hs : s.division = d) :
    (processStudent subjects allocs marks rs s).filter (fun r => !(r.division == d)) =
      rs.filter (fun r => !(r.division == d)) := by
  have hq : ∀ x, keyMatch s x = true → (!(x.division == d)) = false := by
    intro x hx
    unfold keyMatch at hx
    simp only [Bool.and_eq_true, beq_iff_eq] at hx
    simp [hx.2, hs]
  unfold processStudent
  by_cases hm : missing_required (studentMarkMap subjects marks s)
      (required_codes subjects allocs s) = true
  · simp only [hm, if_true]
    exact filter_updateFirst _ _ _ hq
      (fun x hx => by rw [show (clearPercentage x).division = x.division from rfl] at *
                      exact hq x hx) rs
  · rw [Bool.not_eq_true] at hm
    simp only [hm, Bool.false_eq_true, if_false]
    cases hf : rs.find? (keyMatch s) with
    | some r =>
      refine filter_updateFirst _ _ _ hq (fun x hx => ?_) rs
      have : (!((computeResult (studentMarkMap subjects marks s) s x).division == d))
          = (!(x.division == d)) := by
        rw [computeResult_division]
      rw [this]
      exact hq x hx
    | none =>
      rw [List.filter_append]
      have : (!((computeResult (studentMarkMap subjects marks s) s
          (freshResult s)).division == d)) = false := by
        rw [computeResult_division]
        simp [freshResult, hs]
      simp [this]

theorem filter_fold_other_division (subjects : List Subject)
    (allocs : List TeacherSubjectAllocation) (marks : List Mark) (d : String) :
    ∀ (l : List Student) (rs : List Result), (∀ s ∈ l, s.division = d) →
      ((l.foldl (processStudent subjects allocs marks) rs).filter
        (fun r => !(r.division == d))) =
      rs.filter (fun r => !(r.division == d)) := by
  intro l
  induction l with
  | nil => intro rs _; rfl
  | cons t l ih =>
    intro rs h
    simp only [List.foldl_cons]
    rw [ih _ (fun u hu => h u (List.mem_cons_of_mem t hu))]
    exact filter_processStudent_other_division subjects allocs marks rs t d
      (h t (List.mem_cons_self t l))

/-- Result rows of other divisions are untouched by the division pass. -/
theorem gen_preserves_other_divisions (d : String) (db : DB) :
    ((generate_results_for_division d db).results.filter (fun r => !(r.division == d))) =
      db.results.filter (fun r => !(r.division == d)) := by
  unfold generate_results_for_division
  exact filter_fold_other_division db.subjects db.allocs db.marks d _ db.results
    (fun s hs => by
      have := List.mem_filter.mp hs
      exact beq_iff_eq.mp this.2)
/-! ## The requirement-list derivation, related to its spec-side pipeline -/

theorem fold_base_eq_nub (subjects : List Subject) :
    ∀ (as : List TeacherSubjectAllocation) (acc : List String),
      as.foldl (baseStep subjects) acc =
      acc ++ nubFrom acc (validAllocCodes subjects as) := by
  intro as
  induction as with
  | nil => intro acc; simp [validAllocCodes, nubFrom]
  | cons a as ih =>
    intro acc
    rw [List.foldl_cons]
    cases h : subjectCodeOf subjects a.subject_id with
    | none =>
      rw [show baseStep subjects acc a = acc from by simp [baseStep, h]]
      rw [ih acc]
      simp [validAllocCodes, List.filterMap_cons, h]
    | some code =>
      by_cases h1 : code = ""
      · rw [show baseStep subjects acc a = acc from by simp [baseStep, h, h1]]
        rw [ih acc]
        simp [validAllocCodes, List.filterMap_cons, h, h1]
      · by_cases h2 : code ∈ grading_only
        · rw [show baseStep subjects acc a = acc from by simp [baseStep, h, h1, h2]]
          rw [ih acc]
          simp [validAllocCodes, List.filterMap_cons, h, h2]
        · by_cases h3 : code ∈ optional_codes
          · rw [show baseStep subjects acc a = acc from by simp [baseStep, h, h1, h2, h3]]
            rw [ih acc]
            simp [validAllocCodes, List.filterMap_cons, h, h2, h3]
          · have hvalid : (!(code == "" || grading_only.contains code ||
                optional_codes.contains code)) = true := by
              simp [h1, h2, h3]
            by_cases h4 : code ∈ acc
            · rw [show baseStep subjects acc a = acc from by
                simp [baseStep, h, h1, h2, h3, h4]]
              rw [ih acc]
              congr 1
              simp only [validAllocCodes, List.filterMap_cons, h, List.filter_cons, hvalid,
                if_true]
              rw [nubFrom, if_pos (show acc.contains code = true by simpa using h4)]
            · rw [show baseStep subjects acc a = acc ++ [code] from by
                simp [baseStep, h, h1, h2, h3, h4]]
              rw [ih (acc ++ [code])]
              simp only [validAllocCodes, List.filterMap_cons, h, List.filter_cons, hvalid,
                if_true]
              rw [nubFrom, if_neg (show ¬acc.contains code = true by simpa using h4)]
              rw [List.append_assoc]
              rfl

/-- The code's requirement list coincides with the amended spec pipeline:
map, discard, keep-first dedup, with the fallback applying exactly when the
division has no allocations. -/
theorem required_codes_eq_amended (subjects : List Subject)
    (allocs : List TeacherSubjectAllocation) (s : Student) :
    required_codes subjects allocs s = specRequiredAmended subjects allocs s := by
  unfold required_codes specRequiredAmended base_required
  simp only [fold_base_eq_nub subjects, List.nil_append]
  cases ho1 : s.optional_subject with
  | none =>
    cases ho2 : s.optional_subject_2 with
    | none => simp [optionalExtension, ho1, ho2]
    | some o2 =>
      by_cases h2 : o2 = "MATHS" ∨ o2 = "SP" <;>
        simp_all [optionalExtension] <;> rcases h2 with h | h <;> simp [h]
  | some o1 =>
    cases ho2 : s.optional_subject_2 with
    | none =>
      by_cases h1 : o1 = "HINDI" ∨ o1 = "IT" <;>
        simp_all [optionalExtension] <;> rcases h1 with h | h <;> simp [h]
    | some o2 =>
      by_cases h1 : o1 = "HINDI" ∨ o1 = "IT" <;>
        by_cases h2 : o2 = "MATHS" ∨ o2 = "SP" <;>
        simp_all [optionalExtension] <;>
        first
        | (rcases h1 with h | h <;> rcases h2 with h' | h' <;> simp [h, h'])
        | (rcases h1 with h | h <;> simp [h])
        | (rcases h2 with h | h <;> simp [h])
/-! ## Claim C1 -/

def c1Subjects : List Subject := [⟨1, "ENG"⟩, ⟨2, "ECO"⟩]
def c1Allocs : List TeacherSubjectAllocation := [⟨1, 1, "A"⟩]
def c1Stu : Student := ⟨101, "S", "A", none, none⟩
def c1Marks : List Mark :=
  [⟨1, 101, "A", 1, none, none, none, some 80, none, none, none, 1⟩,
   ⟨2, 101, "A", 2, none, none, none, some 50, none, none, none, 1⟩]

/-- C1 counterexample: division A's only allocation is ENG, so the required
list is [ENG] and it is fully marked; the claim predicts
percentage = round(80/1, 2) = 80, but the code also averages the non-required
ECO mark and stores round((80+50)/2, 2) = 65. -/
theorem C1_counterexample :
    missing_required (studentMarkMap c1Subjects c1Marks c1Stu)
      (required_codes c1Subjects c1Allocs c1Stu) = false ∧
    ((processStudent c1Subjects c1Allocs c1Marks [] c1Stu).map
      (fun r => r.percentage)) = [some 65] ∧
    specPercentageOfRequired (studentMarkMap c1Subjects c1Marks c1Stu)
      (required_codes c1Subjects c1Allocs c1Stu) = 80 ∧
    (65 : ℚ) ≠ 80 := by decide

/-- C1 (amended): for a student passing the completeness gate, the stored
percentage is round(S/n, 2) where S and n range over the subjects actually
scored — the core subjects ENG/ECO/BK/OC that have a Mark row plus the
student's chosen optional subjects — not over the required-subject list,
which only governs the gate; nothing is stored when n = 0. -/
theorem C1_amended_percentage (subjects : List Subject)
    (allocs : List TeacherSubjectAllocation) (marks : List Mark)
    (results : List Result) (s : Student)
    (hmiss : missing_required (studentMarkMap subjects marks s)
      (required_codes subjects allocs s) = false)
    (hcnt : 0 < scoredCount (studentMarkMap subjects marks s) s) :
    ((processStudent subjects allocs marks results s).find? (keyMatch s)).map
        (fun r => r.percentage) =
      some (some (round2 (scoredSum (studentMarkMap subjects marks s) s /
        (scoredCount (studentMarkMap subjects marks s) s : ℚ)))) := by
  rw [find?_processStudent_complete subjects allocs marks results s hmiss,
    Option.map_some']
  rw [computeResult_spec]
  simp [hcnt]

def c1wSubjects : List Subject :=
  [⟨1, "ENG"⟩, ⟨2, "ECO"⟩, ⟨3, "BK"⟩, ⟨4, "OC"⟩, ⟨5, "HINDI"⟩, ⟨6, "MATHS"⟩]
def c1wAllocs : List TeacherSubjectAllocation :=
  [⟨1, 1, "A"⟩, ⟨1, 2, "A"⟩, ⟨1, 3, "A"⟩, ⟨1, 4, "A"⟩]
def c1wStu : Student := ⟨101, "S", "A", some "HINDI", some "MATHS"⟩
def c1wMarks : List Mark :=
  [⟨1, 101, "A", 1, none, none, none, some 80, none, none, none, 1⟩,
   ⟨2, 101, "A", 2, none, none, none, some 70, none, none, none, 1⟩,
   ⟨3, 101, "A", 3, none, none, none, some 60, none, none, none, 1⟩,
   ⟨4, 101, "A", 4, none, none, none, some 90, none, none, none, 1⟩,
   ⟨5, 101, "A", 5, none, none, none, some 75, none, none, none, 1⟩,
   ⟨6, 101, "A", 6, none, none, none, some 65, none, none, none, 1⟩]

/-- C1 witness: the spec's worked example — six annual marks
80+70+60+90+75+65 over 6 subjects give percentage 73.33. -/
theorem C1_amended_percentage_witness :
    missing_required (studentMarkMap c1wSubjects c1wMarks c1wStu)
      (required_codes c1wSubjects c1wAllocs c1wStu) = false ∧
    0 < scoredCount (studentMarkMap c1wSubjects c1wMarks c1wStu) c1wStu ∧
    scoredSum (studentMarkMap c1wSubjects c1wMarks c1wStu) c1wStu = 440 ∧
    scoredCount (studentMarkMap c1wSubjects c1wMarks c1wStu) c1wStu = 6 ∧
    round2 (440 / 6) = 7333/100 ∧
    ((processStudent c1wSubjects c1wAllocs c1wMarks [] c1wStu).find?
        (keyMatch c1wStu)).map (fun r => r.percentage) =
      some (some (round2 (scoredSum (studentMarkMap c1wSubjects c1wMarks c1wStu) c1wStu /
        (scoredCount (studentMarkMap c1wSubjects c1wMarks c1wStu) c1wStu : ℚ)))) :=
  ⟨by decide, by decide, by decide, by decide, by decide,
   C1_amended_percentage c1wSubjects c1wAllocs c1wMarks [] c1wStu
     (by decide) (by decide)⟩

/-! ## Claim C2 -/

/-- C2: a student missing a required annual mark triggers only the clearing
of an existing row's percentage: no row is created when none exists, the
first matching row keeps every other field, row count is unchanged, and
non-matching rows are untouched. -/
theorem C2_incomplete_clears_percentage (subjects : List Subject)
    (allocs : List TeacherSubjectAllocation) (marks : List Mark)
    (results : List Result) (s : Student)
    (hmiss : missing_required (studentMarkMap subjects marks s)
      (required_codes subjects allocs s) = true) :
    (results.find? (keyMatch s) = none →
      processStudent subjects allocs marks results s = results) ∧
    (processStudent subjects allocs marks results s).find? (keyMatch s) =
      (results.find? (keyMatch s)).map clearPercentage ∧
    (processStudent subjects allocs marks results s).length = results.length ∧
    (processStudent subjects allocs marks results s).filter
        (fun x => !(keyMatch s x)) =
      results.filter (fun x => !(keyMatch s x)) := by
  unfold processStudent
  simp only [hmiss, if_true]
  refine ⟨fun h => updateFirst_of_find?_none _ _ results h, ?_, ?_, ?_⟩
  · exact find?_updateFirst_self _ _ (fun x => keyMatch_clearPercentage s x) results
  · exact length_updateFirst _ _ results
  · refine filter_updateFirst _ _ _ (fun x hx => by simp [hx]) (fun x hx => ?_) results
    rw [show clearPercentage x = { x with percentage := none } from rfl]
    simp only [keyMatch] at hx ⊢
    simp [hx]

def c2Subjects : List Subject :=
  [⟨1, "ENG"⟩, ⟨2, "ECO"⟩, ⟨3, "BK"⟩, ⟨4, "OC"⟩, ⟨5, "HINDI"⟩, ⟨6, "MATHS"⟩]
def c2Allocs : List TeacherSubjectAllocation :=
  [⟨1, 1, "A"⟩, ⟨1, 2, "A"⟩, ⟨1, 3, "A"⟩, ⟨1, 4, "A"⟩]
def c2Stu : Student := ⟨101, "S", "A", some "HINDI", some "MATHS"⟩
def c2Marks : List Mark :=
  [⟨1, 101, "A", 1, none, none, none, some 80, none, none, none, 1⟩,
   ⟨2, 101, "A", 2, none, none, none, some 70, none, none, none, 1⟩,
   ⟨3, 101, "A", 3, none, none, none, some 60, none, none, none, 1⟩,
   ⟨4, 101, "A", 4, none, none, none, some 90, none, none, none, 1⟩,
   ⟨5, 101, "A", 5, none, none, none, some 75, none, none, none, 1⟩,
   ⟨6, 101, "A", 6, none, none, none, none, none, none, none, 1⟩]
def c2Row : Result :=
  { freshResult c2Stu with percentage := some (7333/100), evs_grade := some "B" }
def c2Other : Result := freshResult ⟨77, "T", "B", none, none⟩
def c2Results : List Result := [c2Other, c2Row]

/-- C2 witness: the spec's second example — MATHS annual is null, so the
previously stored 73.33 percentage is cleared while the row (and its other
fields) and the other division's row survive. -/
theorem C2_incomplete_clears_percentage_witness :
    missing_required (studentMarkMap c2Subjects c2Marks c2Stu)
      (required_codes c2Subjects c2Allocs c2Stu) = true ∧
    ((c2Results.find? (keyMatch c2Stu) = none →
      processStudent c2Subjects c2Allocs c2Marks c2Results c2Stu = c2Results) ∧
    (processStudent c2Subjects c2Allocs c2Marks c2Results c2Stu).find?
        (keyMatch c2Stu) =
      (c2Results.find? (keyMatch c2Stu)).map clearPercentage ∧
    (processStudent c2Subjects c2Allocs c2Marks c2Results c2Stu).length =
      c2Results.length ∧
    (processStudent c2Subjects c2Allocs c2Marks c2Results c2Stu).filter
        (fun x => !(keyMatch c2Stu x)) =
      c2Results.filter (fun x => !(keyMatch c2Stu x))) :=
  ⟨by decide,
   C2_incomplete_clears_percentage c2Subjects c2Allocs c2Marks c2Results c2Stu
     (by decide)⟩

/-! ## Claim C3 -/

def c3Subjects : List Subject := [⟨1, "EVS"⟩]
def c3Allocs : List TeacherSubjectAllocation := [⟨1, 1, "A"⟩]
def c3Stu : Student := ⟨101, "S", "A", none, none⟩

/-- C3 counterexample: the division has one allocation, mapping to the
grade-only code EVS; after discarding it the resulting set is empty, so the
claim predicts the fallback [ENG, ECO, BK, OC], but the code falls back only
when no allocations exist at all and derives the empty list. -/
theorem C3_counterexample :
    required_codes c3Subjects c3Allocs c3Stu = [] ∧
    specRequiredClaimC3 c3Subjects c3Allocs c3Stu = ["ENG", "ECO", "BK", "OC"] ∧
    ([] : List String) ≠ ["ENG", "ECO", "BK", "OC"] := by decide

/-- C3 (amended): the required list equals the division's allocations mapped
to subject codes with missing/empty codes and the sets {EVS,PE} and
{HINDI,IT,MATHS,SP} discarded, deduplicated keeping first occurrences, with
the fixed fallback [ENG,ECO,BK,OC] used exactly when the division has no
allocations at all (an allocation set that is entirely discarded yields the
empty base list, not the fallback); the student's chosen optional subjects
are then appended. -/
theorem C3_amended_required_list (subjects : List Subject)
    (allocs : List TeacherSubjectAllocation) (s : Student) :
    required_codes subjects allocs s = specRequiredAmended subjects allocs s :=
  required_codes_eq_amended subjects allocs s
/-! ## Claim C4 -/

/-- C4: on every computed row, total_grace is the sum of exactly the seven
grace fields eng/hindi/it/maths/sp/bk/oc of that row (null as 0), and the
value never depends on the eco grace data: neither on the eco_grace the row
previously carried nor on the grace of the ECO mark. -/
theorem C4_total_grace (mm : String → Option Mark) (s : Student) (r0 : Result) :
    (computeResult mm s r0).total_grace = some (sumSome
      [(computeResult mm s r0).eng_grace, (computeResult mm s r0).hindi_grace,
       (computeResult mm s r0).it_grace, (computeResult mm s r0).maths_grace,
       (computeResult mm s r0).sp_grace, (computeResult mm s r0).bk_grace,
       (computeResult mm s r0).oc_grace]) ∧
    (∀ q : Option ℚ,
      (computeResult mm s { r0 with eco_grace := q }).total_grace =
        (computeResult mm s r0).total_grace) := by
  constructor
  · simp only [computeResult_spec]
  · intro q
    simp only [computeResult_spec]

/-! ## Claim C5 -/

def c5Subjects : List Subject := [⟨1, "EVS"⟩, ⟨2, "ENG"⟩]
def c5Allocs : List TeacherSubjectAllocation := [⟨1, 2, "A"⟩]
def c5Stu : Student := ⟨101, "S", "A", none, none⟩
def c5Marks : List Mark :=
  [⟨1, 101, "A", 1, none, none, none, some 80, none, none, none, 1⟩]
def c5Results : List Result := [freshResult c5Stu]

/-- C5 counterexample: the student has an EVS Mark with annual 80, so the
claim predicts evs_grade "A+", but the required ENG annual is missing, the
completeness gate fails, and the grade block never runs: evs_grade stays
unset. -/
theorem C5_counterexample :
    gradeAnnual (studentMarkMap c5Subjects c5Marks c5Stu) "EVS" = some 80 ∧
    ((processStudent c5Subjects c5Allocs c5Marks c5Results c5Stu).map
      (fun r => r.evs_grade)) = [none] ∧
    (none : Option String) ≠ some "A+" := by decide

/-- C5 (amended): for a student passing the completeness gate, evs_grade
(resp. pe_grade) is stored from the EVS (resp. PE) Mark's non-null annual via
the thresholds 75/60/50/35; with no such Mark or a null annual — or whenever
the gate fails — the field keeps its previous value. -/
theorem C5_amended_grades (subjects : List Subject)
    (allocs : List TeacherSubjectAllocation) (marks : List Mark)
    (results : List Result) (s : Student)
    (hmiss : missing_required (studentMarkMap subjects marks s)
      (required_codes subjects allocs s) = false) :
    ((processStudent subjects allocs marks results s).find? (keyMatch s)).map
        (fun r => r.evs_grade) =
      some (match gradeAnnual (studentMarkMap subjects marks s) "EVS" with
        | some a => some (gradeOf a)
        | none => ((results.find? (keyMatch s)).getD (freshResult s)).evs_grade) ∧
    ((processStudent subjects allocs marks results s).find? (keyMatch s)).map
        (fun r => r.pe_grade) =
      some (match gradeAnnual (studentMarkMap subjects marks s) "PE" with
        | some a => some (gradeOf a)
        | none => ((results.find? (keyMatch s)).getD (freshResult s)).pe_grade) := by
  rw [find?_processStudent_complete subjects allocs marks results s hmiss]
  constructor <;> · rw [Option.map_some', computeResult_spec]

def c5wSubjects : List Subject := [⟨1, "EVS"⟩, ⟨2, "ENG"⟩, ⟨3, "PE"⟩]
def c5wAllocs : List TeacherSubjectAllocation := [⟨1, 2, "A"⟩]
def c5wStu : Student := ⟨101, "S", "A", none, none⟩
def c5wMarks : List Mark :=
  [⟨1, 101, "A", 1, none, none, none, some 80, none, none, none, 1⟩,
   ⟨2, 101, "A", 2, none, none, none, some 40, none, none, none, 1⟩]
def c5wRow : Result := { freshResult c5wStu with pe_grade := some "B" }

/-- C5 witness: complete student with EVS annual 80 and no PE mark — the run
stores evs_grade "A+" and keeps the previously stored pe_grade "B". -/
theorem C5_amended_grades_witness :
    missing_required (studentMarkMap c5wSubjects c5wMarks c5wStu)
      (required_codes c5wSubjects c5wAllocs c5wStu) = false ∧
    (((processStudent c5wSubjects c5wAllocs c5wMarks [c5wRow] c5wStu).find?
        (keyMatch c5wStu)).map (fun r => r.evs_grade) =
      some (match gradeAnnual (studentMarkMap c5wSubjects c5wMarks c5wStu) "EVS" with
        | some a => some (gradeOf a)
        | none => (([c5wRow].find? (keyMatch c5wStu)).getD (freshResult c5wStu)).evs_grade) ∧
    ((processStudent c5wSubjects c5wAllocs c5wMarks [c5wRow] c5wStu).find?
        (keyMatch c5wStu)).map (fun r => r.pe_grade) =
      some (match gradeAnnual (studentMarkMap c5wSubjects c5wMarks c5wStu) "PE" with
        | some a => some (gradeOf a)
        | none => (([c5wRow].find? (keyMatch c5wStu)).getD (freshResult c5wStu)).pe_grade)) :=
  ⟨by decide,
   C5_amended_grades c5wSubjects c5wAllocs c5wMarks [c5wRow] c5wStu (by decide)⟩

/-! ## Claim C6 -/

def c6Subjects : List Subject := [⟨1, "EVS"⟩, ⟨2, "PE"⟩, ⟨3, "ENG"⟩]
def c6Allocs : List TeacherSubjectAllocation := [⟨1, 3, "A"⟩]
def c6Stu : Student := ⟨101, "S", "A", none, none⟩
def c6Marks : List Mark :=
  [⟨1, 101, "A", 3, none, none, none, some 50, none, none, none, 1⟩,
   ⟨2, 101, "A", 1, none, none, none, some 74, none, none, none, 1⟩,
   ⟨3, 101, "A", 2, none, none, none, some 49, none, none, none, 1⟩]

/-- C6 counterexample: an EVS annual of 74 is graded "A" (74 ≥ 60), not "C"
as claimed, and a PE annual of 49 is graded "C" (49 ≥ 35), not "F". -/
theorem C6_counterexample :
    ((processStudent c6Subjects c6Allocs c6Marks [] c6Stu).map
      (fun r => (r.evs_grade, r.pe_grade))) = [(some "A", some "C")] ∧
    (some "A" : Option String) ≠ some "C" ∧
    (some "C" : Option String) ≠ some "F" := by decide

def c6wMarks : List Mark :=
  [⟨1, 101, "A", 3, none, none, none, some 50, none, none, none, 1⟩,
   ⟨2, 101, "A", 1, none, none, none, some 75, none, none, none, 1⟩,
   ⟨3, 101, "A", 2, none, none, none, some 50, none, none, none, 1⟩]

/-- C6 (amended): at the claimed boundary inputs the thresholds give
74 → "A", 75 → "A+", 49 → "C", 50 → "B", as the processed rows confirm. -/
theorem C6_amended_boundaries :
    gradeOf 74 = "A" ∧ gradeOf 75 = "A+" ∧ gradeOf 49 = "C" ∧ gradeOf 50 = "B" ∧
    ((processStudent c6Subjects c6Allocs c6wMarks [] c6Stu).map
      (fun r => (r.evs_grade, r.pe_grade))) = [(some "A+", some "B")] := by decide
/-! ## Claim C7 -/

instance (a b : Student) : Decidable (keyDistinct a b) :=
  inferInstanceAs (Decidable ((a.roll_no, a.division) ≠ (b.roll_no, b.division)))

/-- C7: with pairwise distinct (roll_no, division) keys among the division's
students — the composite natural key of the Student table — running the
division pass twice with no intervening data change yields the same store as
running it once. -/
theorem C7_idempotent (division : String) (db : DB)
    (h : (db.students.filter (fun s => s.division == division)).Pairwise keyDistinct) :
    generate_results_for_division division (generate_results_for_division division db) =
      generate_results_for_division division db :=
  gen_idempotent division db h

def c7Db : DB :=
  { subjects := [⟨1, "ENG"⟩]
    students := [⟨1, "A1", "A", none, none⟩, ⟨2, "B1", "A", none, none⟩]
    marks := [⟨1, 1, "A", 1, none, none, none, some 60, none, none, none, 1⟩]
    allocs := [⟨1, 1, "A"⟩]
    results := [{ freshResult ⟨2, "B1", "A", none, none⟩ with percentage := some 10 }] }

/-- C7 witness: a division with one student whose pass creates a row and one
whose pass clears a stale percentage; the second run changes nothing. -/
theorem C7_idempotent_witness :
    (c7Db.students.filter (fun s => s.division == "A")).Pairwise keyDistinct ∧
    generate_results_for_division "A" (generate_results_for_division "A" c7Db) =
      generate_results_for_division "A" c7Db :=
  ⟨by decide, C7_idempotent "A" c7Db (by decide)⟩

/-! ## Claim C8 -/

/-- C8: the division pass never modifies the Student, Subject, Mark or
TeacherSubjectAllocation tables, and the Result rows of every other division
are left exactly as they were — all created or updated rows belong to the
given division. -/
theorem C8_frame (d : String) (db : DB) :
    (generate_results_for_division d db).students = db.students ∧
    (generate_results_for_division d db).subjects = db.subjects ∧
    (generate_results_for_division d db).marks = db.marks ∧
    (generate_results_for_division d db).allocs = db.allocs ∧
    ((generate_results_for_division d db).results.filter
        (fun r => !(r.division == d))) =
      db.results.filter (fun r => !(r.division == d)) :=
  ⟨gen_preserves_students d db, gen_preserves_subjects d db,
   gen_preserves_marks d db, gen_preserves_allocs d db,
   gen_preserves_other_divisions d db⟩
/-! ## Claim C10 -/

/-- C10: whenever mark creation succeeds (status 201), the committed Mark row
has grace 0, whatever grace value the request supplied; the new row is
appended and attributed to the entering teacher. -/
theorem C10_enter_marks_grace_zero (gmax : ℚ) (user_id : Nat)
    (data : EnterMarkRequest) (db : DB) (resp : HttpResponse) (db' : DB)
    (h : enter_marks gmax user_id data db = (resp, db'))
    (h201 : resp.status = 201) :
    ∃ mk : Mark, db'.marks = db.marks ++ [mk] ∧ mk.grace = some 0 ∧
      mk.entered_by = user_id := by
  unfold enter_marks at h
  repeat' split at h
  all_goals
    simp only [Prod.mk.injEq] at h
    obtain ⟨hr, hd⟩ := h
    subst hr
    first
    | (subst hd; exact ⟨_, rfl, rfl, rfl⟩)
    | (exfalso; simp at h201)
def c10Db : DB :=
  { subjects := [⟨1, "ENG"⟩]
    students := [⟨101, "N", "A", none, none⟩]
    marks := []
    allocs := [⟨7, 1, "A"⟩]
    results := [] }
def c10Data : EnterMarkRequest := ⟨101, "A", 1, some 20, some 18, some 40, some 80, some 5⟩

/-- C10 witness: a creation request supplying grace 5 succeeds and the stored
row nevertheless has grace 0. -/
theorem C10_enter_marks_grace_zero_witness :
    c10Data.grace = some 5 ∧
    (enter_marks 15 7 c10Data c10Db).1.status = 201 ∧
    ∃ mk : Mark, (enter_marks 15 7 c10Data c10Db).2.marks = c10Db.marks ++ [mk] ∧
      mk.grace = some 0 ∧ mk.entered_by = 7 :=
  ⟨by decide, by decide,
   C10_enter_marks_grace_zero 15 7 c10Data c10Db _ _ rfl (by decide)⟩

/-! ## Claim C9 -/

def c9Db : DB :=
  { subjects := [⟨1, "ENG"⟩]
    students := [⟨101, "N", "A", none, none⟩]
    marks := []
    allocs := [⟨7, 1, "A"⟩]
    results := [] }
def c9Data : EnterMarkRequest := ⟨101, "A", 1, some 20, some 18, some 40, some 80, none⟩

/-- C9 counterexample: a successful mark creation commits the Mark row but
triggers no result regeneration — the returned state is not a fixed point of
`generate_results_for_division`, which it would be had the handler invoked it
after committing (the pass is idempotent); here the recomputation would
create the student's Result row, and the handler leaves the table empty. -/
theorem C9_counterexample :
    (enter_marks 15 7 c9Data c9Db).1 = ⟨201, "Marks entered successfully"⟩ ∧
    (enter_marks 15 7 c9Data c9Db).2.results = [] ∧
    generate_results_for_division "A" (enter_marks 15 7 c9Data c9Db).2 ≠
      (enter_marks 15 7 c9Data c9Db).2 := by decide

/-- C9 (amended): only the update and delete handlers invoke
`generate_results_for_division` for the mark's division after committing the
mark change, non-fatally — they return success with the committed mark write
preserved whether or not the recomputation runs to completion (`genOk`);
the create handler commits the new mark without triggering recomputation. -/
theorem C9_amended_update_delete_regenerate
    (gmax : ℚ) (uid mid : Nat) (data : UpdateMarkRequest) (genOk : Bool) (db : DB)
    (uid2 : Nat) (ut2 : String) (mid2 : Nat) (genOk2 : Bool) (db2 : DB)
    (mark : Mark) (subject : Subject) (al : TeacherSubjectAllocation)
    (mark2 : Mark) (g : ℚ)
    (h1 : db.marks.find? (fun m => m.mark_id == mid) = some mark)
    (h2 : db.subjects.find? (fun s => s.subject_id == mark.subject_id) = some subject)
    (h3 : checkTeacherAllocation uid subject.subject_id mark.division db = some al)
    (h4 : ¬(data.unit1 < 0 ∨ data.unit1 > 25 ∨ data.unit2 < 0 ∨ data.unit2 > 25))
    (h5 : ¬(data.term < 0 ∨ data.term > 50))
    (h6 : ¬(data.annual < 0 ∨ data.annual > 100))
    (h7 : resolveGrace data mark = some g)
    (h8 : ¬(g < 0 ∨ g > gmax))
    (h9 : db2.marks.find? (fun m => m.mark_id == mid2) = some mark2)
    (h10 : ¬(ut2 ≠ "ADMIN" ∧ mark2.entered_by ≠ uid2)) :
    (∃ committedU : DB,
      committedU = { db with marks := (updateFirst (fun m => m.mark_id == mid) (fun _ =>
        { mark with
            unit1 := some data.unit1
            unit2 := some data.unit2
            term := some data.term
            annual := some data.annual
            tot := some (data.unit1 + data.unit2 + data.term + data.annual)
            sub_avg := some (round2 ((data.unit1 + data.unit2 + data.term +
              data.annual) / 2))
            grace := some g }) db.marks) } ∧
      update_marks gmax uid mid data genOk db =
        some (⟨200, "Marks updated successfully"⟩,
          if genOk then generate_results_for_division mark.division committedU
          else committedU) ∧
      (if genOk then generate_results_for_division mark.division committedU
        else committedU).marks = committedU.marks) ∧
    (∃ committedD : DB,
      committedD = { db2 with marks := db2.marks.eraseP (fun m => m.mark_id == mid2) } ∧
      delete_mark uid2 ut2 mid2 genOk2 db2 =
        (⟨200, "Marks deleted"⟩,
          if genOk2 then generate_results_for_division mark2.division committedD
          else committedD) ∧
      (if genOk2 then generate_results_for_division mark2.division committedD
        else committedD).marks = committedD.marks) := by
  constructor
  · refine ⟨_, rfl, ?_, ?_⟩
    · unfold update_marks
      simp only [h1, h2, h3]
      rw [if_neg h4, if_neg h5, if_neg h6]
      simp only [h7]
      rw [if_neg h8]
      cases hdg : data.grace with
      | some gg =>
        have hg : gg = g := by simp [resolveGrace, hdg] at h7; exact h7
        subst hg
        simp [hdg]
      | none =>
        have hg : mark.grace = some g := by simpa [resolveGrace, hdg] using h7
        simp [hdg, hg]
    · cases genOk <;> simp [gen_preserves_marks]
  · refine ⟨_, rfl, ?_, ?_⟩
    · unfold delete_mark
      simp only [h9]
      rw [if_neg h10]
    · cases genOk2 <;> simp [gen_preserves_marks]
def c9uDb : DB :=
  { subjects := [⟨1, "ENG"⟩]
    students := [⟨101, "N", "A", none, none⟩]
    marks := [⟨1, 101, "A", 1, some 10, some 10, some 30, some 70, some 120,
      some 60, some 0, 7⟩]
    allocs := [⟨7, 1, "A"⟩]
    results := [] }
def c9uData : UpdateMarkRequest := ⟨20, 18, 40, 80, some 3⟩
def c9uMark : Mark :=
  ⟨1, 101, "A", 1, some 10, some 10, some 30, some 70, some 120, some 60, some 0, 7⟩
def c9dDb : DB :=
  { subjects := [⟨1, "ENG"⟩]
    students := [⟨101, "N", "A", none, none⟩]
    marks := [⟨5, 101, "A", 1, some 10, some 10, some 30, some 70, some 120,
      some 60, some 0, 9⟩]
    allocs := [⟨7, 1, "A"⟩]
    results := [] }
def c9dMark : Mark :=
  ⟨5, 101, "A", 1, some 10, some 10, some 30, some 70, some 120, some 60, some 0, 9⟩

/-- C9 witness: a successful update (recomputation runs) and a successful
admin delete (recomputation raises) both return success and preserve the
committed mark change. -/
theorem C9_amended_update_delete_regenerate_witness :
    (∃ committedU : DB,
      committedU = { c9uDb with marks := (updateFirst (fun m => m.mark_id == 1) (fun _ =>
        { c9uMark with
            unit1 := some c9uData.unit1
            unit2 := some c9uData.unit2
            term := some c9uData.term
            annual := some c9uData.annual
            tot := some (c9uData.unit1 + c9uData.unit2 + c9uData.term + c9uData.annual)
            sub_avg := some (round2 ((c9uData.unit1 + c9uData.unit2 + c9uData.term +
              c9uData.annual) / 2))
            grace := some 3 }) c9uDb.marks) } ∧
      update_marks 15 7 1 c9uData true c9uDb =
        some (⟨200, "Marks updated successfully"⟩,
          if true then generate_results_for_division c9uMark.division committedU
          else committedU) ∧
      (if true then generate_results_for_division c9uMark.division committedU
        else committedU).marks = committedU.marks) ∧
    (∃ committedD : DB,
      committedD = { c9dDb with marks := c9dDb.marks.eraseP (fun m => m.mark_id == 5) } ∧
      delete_mark 3 "ADMIN" 5 false c9dDb =
        (⟨200, "Marks deleted"⟩,
          if false then generate_results_for_division c9dMark.division committedD
          else committedD) ∧
      (if false then generate_results_for_division c9dMark.division committedD
        else committedD).marks = committedD.marks) :=
  C9_amended_update_delete_regenerate 15 7 1 c9uData true c9uDb 3 "ADMIN" 5 false c9dDb
    c9uMark ⟨1, "ENG"⟩ ⟨7, 1, "A"⟩ c9dMark 3
    (by decide) (by decide) (by decide) (by decide) (by decide) (by decide)
    (by decide) (by decide) (by decide) (by decide)
